import Mathlib

/-!
Shallow embedding of `src/components/push.rs` (the push `OperationController`)
from the gitui repository, together with the external collaborators the spec
fixes for it (credential store, transfer engine, notification channel, event
queue). All fallible collaborator calls are modelled by an `Env` record that
supplies one call's worth of answers; methods taking `&mut self` and returning
`Result` become functions returning the mutated state together with an
`Except` result, so that field writes performed before a failing call persist,
exactly as in the Rust source.
-/

namespace Gitui

/-- Modelled from the spec: notification channel signals tagged by subsystem
(asyncgit's `AsyncNotification` is not under src/); the controller reacts only
to the transfer/push tag. -/
inductive AsyncNotification
  | Push
  | Other (tag : Nat)
deriving DecidableEq, Repr

/-- Modelled from the spec: key codes for the designated cancel/close and
confirm keys (the key-config module is not under src/); the two designated
keys are distinct. -/
inductive KeyCode
  | esc
  | enter
  | char (c : Char)
deriving DecidableEq, Repr

/-- Modelled from the spec: input events delivered to the key-event handler. -/
inductive Event
  | Key (code : KeyCode)
  | Mouse
  | Resize
deriving DecidableEq, Repr

/-- The designated key bindings: `exit_popup` is the cancel/close key,
`enter` the confirm key. -/
structure KeyConfig where
  exit_popup : KeyCode
  enter : KeyCode
deriving DecidableEq, Repr

/-- Default bindings, as used by `PushComponent` through its `key_config`
field. -/
def key_config : KeyConfig := { exit_popup := KeyCode.esc, enter := KeyCode.enter }

/-- Modelled from the spec: username/password-shaped credential pair
(asyncgit's `BasicAuthCredential` is not under src/). -/
structure BasicAuthCredential where
  username : Option String
  password : Option String
deriving DecidableEq, Repr

/-- Constructor mirroring `BasicAuthCredential::new`. -/
def BasicAuthCredential.new (u p : Option String) : BasicAuthCredential :=
  { username := u, password := p }

/-- Modelled from the spec: `complete()` is true iff both fields are present
and non-empty. -/
def BasicAuthCredential.is_complete (c : BasicAuthCredential) : Bool :=
  (match c.username with
    | some u => !u.isEmpty
    | none => false) &&
  (match c.password with
    | some p => !p.isEmpty
    | none => false)

/-- Modelled from the spec: the ordered transfer phases of a progress
snapshot (asyncgit's `PushProgressState` is not under src/). -/
inductive PushProgressState
  | PackingAddingObject
  | PackingDeltafiction
  | Pushing
deriving DecidableEq, Repr

/-- Modelled from the spec: a progress snapshot carries a phase and a percent
in `[0,100]` (asyncgit's `PushProgress` is not under src/). -/
structure PushProgress where
  state : PushProgressState
  progress : Nat
deriving DecidableEq, Repr

/-- Modelled from the spec: a transfer request submitted to the engine
(asyncgit's `PushRequest` is not under src/). -/
structure PushRequest where
  remote : String
  branch : String
  basic_credential : Option BasicAuthCredential
deriving DecidableEq, Repr

/-- Modelled from the spec: the default remote identifier (asyncgit's
`DEFAULT_REMOTE_NAME` is not under src/; Scenario A fixes it to "origin"). -/
def DEFAULT_REMOTE_NAME : String := "origin"

/-- Modelled from the spec: events appended to the process-wide queue; the
controller only ever appends structured failure messages. -/
inductive InternalEvent
  | ShowErrorMsg (msg : String)
deriving DecidableEq, Repr

/-- Modelled from the spec: the fixed no-progress label (the strings module
is not under src/; only that the label is fixed matters). -/
def PUSH_POPUP_PROGRESS_NONE : String := "preparing..."

/-- Modelled from the spec: fixed human label for the object-adding phase. -/
def PUSH_POPUP_STATES_ADDING : String := "adding objects"

/-- Modelled from the spec: fixed human label for the delta-computing
phase. -/
def PUSH_POPUP_STATES_DELTAS : String := "deltas"

/-- Modelled from the spec: fixed human label for the transferring phase. -/
def PUSH_POPUP_STATES_PUSHING : String := "pushing"

/-- Modelled from the spec: the CredentialNegotiator (`CredComponent`,
src/components/cred.rs, not under src/): a mutable credential pair with an
independent visibility flag. -/
structure CredComponent where
  visible : Bool
  cred : BasicAuthCredential
deriving DecidableEq, Repr

/-- Modelled from the spec: a fresh negotiator is hidden and holds the empty
credential. -/
def CredComponent.new : CredComponent :=
  { visible := false, cred := BasicAuthCredential.new none none }

def CredComponent.set_cred (c : CredComponent) (cr : BasicAuthCredential) :
    CredComponent :=
  { c with cred := cr }

def CredComponent.get_cred (c : CredComponent) : BasicAuthCredential :=
  c.cred

def CredComponent.is_visible (c : CredComponent) : Bool :=
  c.visible

def CredComponent.show (c : CredComponent) : CredComponent :=
  { c with visible := true }

def CredComponent.hide (c : CredComponent) : CredComponent :=
  { c with visible := false }

/-- One call's worth of collaborator answers: results of the credential-store
queries, of the engine's `request`/`is_pending`/`progress`/`last_result`
calls, and the outcome of delegating a key event to the negotiator (whether
it consumes the event and, if so, the edited credential it then holds).
Errors are carried as strings. -/
structure Env where
  need_username_password : Except String Bool
  extract_username_password : Except String BasicAuthCredential
  request_result : Except String Unit
  is_pending : Except String Bool
  progress : Except String (Option PushProgress)
  last_result : Except String (Option String)
  cred_consumes : Bool
  cred_after : BasicAuthCredential

/-- Modelled from the spec: the negotiator participates in the key-event
protocol, consuming navigation/edit keys (possibly editing its pair) only
while visible; while hidden it consumes nothing and is unchanged. The
decision of whether a given key is consumed, and the edited pair, come from
the environment. -/
def CredComponent.event (c : CredComponent) (env : Env) :
    CredComponent × Bool :=
  if c.visible then
    if env.cred_consumes then ({ c with cred := env.cred_after }, true)
    else (c, false)
  else (c, false)

/-- State of `PushComponent` (src/components/push.rs), with two
instrumentation fields recording its outward effects: `queue` is the list of
events appended to the process-wide queue so far, and `requests` the list of
requests submitted to the engine so far. `polls` counts the engine poll
queries (`is_pending`, `progress`, `last_result`) the controller has made. -/
structure PushComponent where
  visible : Bool
  progress : Option PushProgress
  pending : Bool
  branch : String
  input_cred : CredComponent
  queue : List InternalEvent
  requests : List PushRequest
  polls : Nat
deriving DecidableEq, Repr

/-- `PushComponent::new`: hidden, not pending, empty branch, no progress,
fresh hidden negotiator. -/
def PushComponent.new : PushComponent :=
  { visible := false
    progress := none
    pending := false
    branch := ""
    input_cred := CredComponent.new
    queue := []
    requests := []
    polls := 0 }

def PushComponent.is_visible (self : PushComponent) : Bool :=
  self.visible

/-- `Component::hide` for `PushComponent`: sets `visible` to false. -/
def PushComponent.hide (self : PushComponent) : PushComponent :=
  { self with visible := false }

/-- `Component::show` for `PushComponent`: sets `visible` to true (the Rust
method always returns `Ok(())`). -/
def PushComponent.show (self : PushComponent) : PushComponent :=
  { self with visible := true }

/-- `PushComponent::push_to_remote`: sets `pending := true`, clears
`progress`, then submits a request built from the default remote, the stored
branch and the given credential; a submission error propagates with the
writes already performed left in place. -/
def PushComponent.push_to_remote (self : PushComponent) (env : Env)
    (cred : Option BasicAuthCredential) : PushComponent × Except String Unit :=
  let self := { self with pending := true, progress := none }
  let req : PushRequest :=
    { remote := DEFAULT_REMOTE_NAME
      branch := self.branch
      basic_credential := cred }
  let self := { self with requests := self.requests ++ [req] }
  match env.request_result with
  | Except.error e => (self, Except.error e)
  | Except.ok _ => (self, Except.ok ())

/-- `PushComponent::push`: records the branch, shows the popup, then decides
the credential path: no auth needed submits directly with no credential;
auth needed extracts the stored credential (downgrading extraction failure to
the empty credential), submits it if complete, otherwise primes and shows the
negotiator without submitting. -/
def PushComponent.push (self : PushComponent) (env : Env) (branch : String) :
    PushComponent × Except String Unit :=
  let self := { self with branch := branch }
  let self := self.show
  match env.need_username_password with
  | Except.error e => (self, Except.error e)
  | Except.ok needed =>
    if needed then
      let cred :=
        match env.extract_username_password with
        | Except.ok c => c
        | Except.error _ => BasicAuthCredential.new none none
      if cred.is_complete then
        self.push_to_remote env (some cred)
      else
        let self :=
          { self with input_cred := (self.input_cred.set_cred cred).show }
        (self, Except.ok ())
    else
      self.push_to_remote env none

/-- `PushComponent::update` (the private refresh routine): polls `is_pending`
and `progress` into the local fields; when no longer pending, polls
`last_result`, appends a formatted failure message to the queue when it
carries an error, and hides. A failing poll propagates, keeping the writes
already performed. -/
def PushComponent.update (self : PushComponent) (env : Env) :
    PushComponent × Except String Unit :=
  let self := { self with polls := self.polls + 1 }
  match env.is_pending with
  | Except.error e => (self, Except.error e)
  | Except.ok ip =>
    let self := { self with pending := ip, polls := self.polls + 1 }
    match env.progress with
    | Except.error e => (self, Except.error e)
    | Except.ok pr =>
      let self := { self with progress := pr }
      if self.pending then (self, Except.ok ())
      else
        let self := { self with polls := self.polls + 1 }
        match env.last_result with
        | Except.error e => (self, Except.error e)
        | Except.ok r =>
          let self :=
            match r with
            | some err =>
              { self with queue := self.queue ++
                  [InternalEvent.ShowErrorMsg ("push failed:\n" ++ err)] }
            | none => self
          (self.hide, Except.ok ())

/-- `PushComponent::update_git`: acts only when visible and the notification
is the push tag, in which case it runs `update`; otherwise it returns with no
state change. -/
def PushComponent.update_git (self : PushComponent) (env : Env)
    (ev : AsyncNotification) : PushComponent × Except String Unit :=
  if self.is_visible then
    match ev with
    | AsyncNotification.Push => self.update env
    | AsyncNotification.Other _ => (self, Except.ok ())
  else (self, Except.ok ())

/-- `PushComponent::get_progress`: projects the optional snapshot to a label
and a percent; `none` gives the fixed no-progress label and 0. -/
def PushComponent.progress_state_name (state : PushProgressState) : String :=
  match state with
  | PushProgressState.PackingAddingObject => PUSH_POPUP_STATES_ADDING
  | PushProgressState.PackingDeltafiction => PUSH_POPUP_STATES_DELTAS
  | PushProgressState.Pushing => PUSH_POPUP_STATES_PUSHING

def PushComponent.get_progress (self : PushComponent) : String × Nat :=
  match self.progress with
  | none => (PUSH_POPUP_PROGRESS_NONE, 0)
  | some progress => (PushComponent.progress_state_name progress.state, progress.progress)

/-- `Component::event` for `PushComponent`: while visible every event is
consumed; a key equal to the cancel/close binding hides the controller; the
event is then offered to the negotiator; if not consumed there and equal to
the confirm binding, a visible negotiator with a complete credential triggers
`push_to_remote` with that credential followed (on submission success) by
hiding the negotiator, and otherwise the whole controller is hidden. While
not visible events pass through un-consumed. -/
def PushComponent.event (self : PushComponent) (env : Env) (ev : Event) :
    PushComponent × Except String Bool :=
  if self.visible then
    match ev with
    | Event.Key e =>
      let self := if e = key_config.exit_popup then self.hide else self
      let credRes := self.input_cred.event env
      let self := { self with input_cred := credRes.1 }
      if credRes.2 then (self, Except.ok true)
      else if e = key_config.enter then
        if self.input_cred.is_visible && (self.input_cred.get_cred).is_complete then
          match self.push_to_remote env (some (self.input_cred.get_cred)) with
          | (s, Except.error er) => (s, Except.error er)
          | (s, Except.ok _) =>
            ({ s with input_cred := s.input_cred.hide }, Except.ok true)
        else (self.hide, Except.ok true)
      else (self, Except.ok true)
    | Event.Mouse => (self, Except.ok true)
    | Event.Resize => (self, Except.ok true)
  else (self, Except.ok false)

/-- One externally triggered transition of the controller: a `push` call,
a notification, or an input event, each under an arbitrary environment of
collaborator answers. -/
inductive Step : PushComponent → PushComponent → Prop
  | push (s : PushComponent) (env : Env) (branch : String) :
      Step s (s.push env branch).1
  | update_git (s : PushComponent) (env : Env) (ev : AsyncNotification) :
      Step s (s.update_git env ev).1
  | event (s : PushComponent) (env : Env) (ev : Event) :
      Step s (s.event env ev).1

/-- States reachable from the freshly constructed controller. -/
inductive Reachable : PushComponent → Prop
  | init : Reachable PushComponent.new
  | step {s s' : PushComponent} : Reachable s → Step s s' → Reachable s'

/-- A transition by `push` or `update_git` only (no key events). -/
inductive StepNoKey : PushComponent → PushComponent → Prop
  | push (s : PushComponent) (env : Env) (branch : String) :
      StepNoKey s (s.push env branch).1
  | update_git (s : PushComponent) (env : Env) (ev : AsyncNotification) :
      StepNoKey s (s.update_git env ev).1

/-- States reachable from the fresh controller by `push` and `update_git`
calls only. -/
inductive ReachableNoKey : PushComponent → Prop
  | init : ReachableNoKey PushComponent.new
  | step {s s' : PushComponent} : ReachableNoKey s → StepNoKey s s' →
      ReachableNoKey s'

/-- A baseline environment: no authentication needed, every collaborator call
succeeds, the engine is still pending with no snapshot, and the negotiator
consumes nothing. -/
def envBase : Env :=
  { need_username_password := Except.ok false
    extract_username_password := Except.ok (BasicAuthCredential.new none none)
    request_result := Except.ok ()
    is_pending := Except.ok true
    progress := Except.ok none
    last_result := Except.ok none
    cred_consumes := false
    cred_after := BasicAuthCredential.new none none }

/-- Environment in which the engine rejects the submission. -/
def envSubmitFail : Env :=
  { envBase with request_result := Except.error "engine busy" }

/-- Environment in which the engine reports a terminal failure. -/
def envTerminalErr : Env :=
  { envBase with is_pending := Except.ok false
                 last_result := Except.ok (some "connection reset") }

/-- C10: `hide` modifies only the `visible` flag; `pending`, `progress`, the
target branch, the negotiator's credential and visibility, the queue and the
request log are all unchanged by `hide` itself. -/
theorem hide_only_visible (s : PushComponent) :
    (s.hide).visible = false ∧ (s.hide).pending = s.pending ∧
    (s.hide).progress = s.progress ∧ (s.hide).branch = s.branch ∧
    (s.hide).input_cred = s.input_cred ∧ (s.hide).queue = s.queue ∧
    (s.hide).requests = s.requests := by
  simp [PushComponent.hide]

/-- C9: the progress projection is total and pure: whenever the stored
snapshot's percent is within `[0,100]` so is the returned percent, `none`
maps to the fixed no-progress label with percent 0, and a present snapshot
maps its phase to its fixed label with the percent passed through
unchanged. -/
theorem get_progress_total (s : PushComponent)
    (hb : ∀ p, s.progress = some p → p.progress ≤ 100) :
    (s.get_progress).2 ≤ 100 ∧
    (s.progress = none → s.get_progress = (PUSH_POPUP_PROGRESS_NONE, 0)) ∧
    (∀ p, s.progress = some p →
      s.get_progress = (PushComponent.progress_state_name p.state, p.progress)) := by
  rcases hp : s.progress with _ | p
  · simp [PushComponent.get_progress, hp]
  · refine ⟨?_, by simp [hp], ?_⟩
    · simpa [PushComponent.get_progress, hp] using hb p hp
    · intro q hq
      cases Option.some.inj hq
      simp [PushComponent.get_progress, hp]

/-- A component holding a boundary snapshot, for the C9 witness. -/
def progressComp : PushComponent :=
  { PushComponent.new with
      progress := some { state := PushProgressState.PackingDeltafiction
                         progress := 100 } }

/-- C9 witness at the boundary percent 100. -/
theorem get_progress_total_witness :
    (progressComp.get_progress).2 ≤ 100 ∧
    (progressComp.progress = none →
      progressComp.get_progress = (PUSH_POPUP_PROGRESS_NONE, 0)) ∧
    (∀ p, progressComp.progress = some p →
      progressComp.get_progress =
        (PushComponent.progress_state_name p.state, p.progress)) :=
  get_progress_total progressComp (by
    intro p hp
    have h := Option.some.inj hp
    subst h
    decide)

/-- C8: `update_git` returns with the state unchanged (every field, in
particular `visible`, `pending`, `progress` and the poll counter) and result
`Ok` unless the controller is visible and the notification carries the push
tag. -/
theorem update_git_frame (s : PushComponent) (env : Env)
    (ev : AsyncNotification)
    (h : ¬(s.visible = true ∧ ev = AsyncNotification.Push)) :
    s.update_git env ev = (s, Except.ok ()) := by
  cases hv : s.visible with
  | false => simp [PushComponent.update_git, PushComponent.is_visible, hv]
  | true =>
    cases ev with
    | Push => exact absurd ⟨hv, rfl⟩ h
    | Other t => simp [PushComponent.update_git, PushComponent.is_visible, hv]

/-- C8 witness: a push-tagged notification while hidden changes nothing. -/
theorem update_git_frame_witness :
    PushComponent.new.update_git envBase AsyncNotification.Push =
      (PushComponent.new, Except.ok ()) :=
  update_git_frame PushComponent.new envBase AsyncNotification.Push (by decide)

/-- C5: with no authentication needed and the submission succeeding,
`push target` returns Ok, leaves `pending = true`, and the engine received
exactly one new submit, carrying the default remote, branch `target` and no
credential. -/
theorem push_direct (s : PushComponent) (env : Env) (target : String)
    (hn : env.need_username_password = Except.ok false)
    (hr : env.request_result = Except.ok ()) :
    (s.push env target).1.pending = true ∧
    (s.push env target).1.requests = s.requests ++
      [{ remote := DEFAULT_REMOTE_NAME, branch := target,
         basic_credential := none }] ∧
    (s.push env target).2 = Except.ok () := by
  simp [PushComponent.push, PushComponent.show, PushComponent.push_to_remote,
    hn, hr]

/-- C5 witness: Scenario A, pushing "main" with no authentication. -/
theorem push_direct_witness :
    (PushComponent.new.push envBase "main").1.pending = true ∧
    (PushComponent.new.push envBase "main").1.requests =
      PushComponent.new.requests ++
        [{ remote := DEFAULT_REMOTE_NAME, branch := "main",
           basic_credential := none }] ∧
    (PushComponent.new.push envBase "main").2 = Except.ok () :=
  push_direct PushComponent.new envBase "main" rfl rfl

/-- C1 counterexample: submitting from the fresh controller (where `pending`
is false) with the engine rejecting the submission leaves `pending = true`
after `push_to_remote` returns, contradicting the claimed rollback to
false. -/
theorem push_to_remote_fail_cex :
    (PushComponent.new.push_to_remote envSubmitFail none).2 =
      Except.error "engine busy" ∧
    ¬((PushComponent.new.push_to_remote envSubmitFail none).1.pending = false) :=
  ⟨rfl, by decide⟩

/-- C1 amended: if the submission fails, `pending` is true after
`push_to_remote` returns — the flag is set before the submission and never
rolled back — regardless of prior state, and the submission error propagates
to the caller. -/
theorem push_to_remote_fail_pending (s : PushComponent) (env : Env)
    (cred : Option BasicAuthCredential) (e : String)
    (h : env.request_result = Except.error e) :
    (s.push_to_remote env cred).1.pending = true ∧
    (s.push_to_remote env cred).2 = Except.error e := by
  simp [PushComponent.push_to_remote, h]

/-- C1 amended witness: concrete failing submission. -/
theorem push_to_remote_fail_pending_witness :
    (PushComponent.new.push_to_remote envSubmitFail none).1.pending = true ∧
    (PushComponent.new.push_to_remote envSubmitFail none).2 =
      Except.error "engine busy" :=
  push_to_remote_fail_pending PushComponent.new envSubmitFail none
    "engine busy" rfl

/-- C3: when `update` observes the engine no longer pending (the polls all
succeeding): a terminal error appends exactly one formatted failure event
whose message contains the error text, and hides; a terminal success appends
nothing and hides. -/
theorem update_terminal (s : PushComponent) (env : Env)
    (p : Option PushProgress)
    (hip : env.is_pending = Except.ok false)
    (hpr : env.progress = Except.ok p) :
    (∀ err, env.last_result = Except.ok (some err) →
      (s.update env).1.queue =
        s.queue ++ [InternalEvent.ShowErrorMsg ("push failed:\n" ++ err)] ∧
      (∃ pre post, "push failed:\n" ++ err = pre ++ err ++ post) ∧
      (s.update env).1.visible = false) ∧
    (env.last_result = Except.ok none →
      (s.update env).1.queue = s.queue ∧
      (s.update env).1.visible = false) := by
  constructor
  · intro err hlr
    refine ⟨?_, ⟨"push failed:\n", "", by simp⟩, ?_⟩ <;>
      simp [PushComponent.update, PushComponent.hide, hip, hpr, hlr]
  · intro hlr
    constructor <;>
      simp [PushComponent.update, PushComponent.hide, hip, hpr, hlr]

/-- After any `push` call the controller is visible, whatever the
collaborators answered. -/
theorem push_visible (s : PushComponent) (env : Env) (b : String) :
    (s.push env b).1.visible = true := by
  unfold PushComponent.push PushComponent.push_to_remote PushComponent.show
  rcases env.need_username_password with e | needed
  · rfl
  · rcases needed
    · rcases env.request_result with e | u <;> rfl
    · rcases env.extract_username_password with e | c
      · rcases env.request_result with e | u <;> rfl
      · rcases hc : c.is_complete
        · simp [hc]
        · rcases env.request_result with e | u <;> simp [hc]

/-- `update_git` preserves the hidden-implies-not-pending implication: the
only way it clears `visible` is the terminal branch of `update`, which has
just set `pending` to false. -/
theorem update_git_inv (s : PushComponent) (env : Env)
    (ev : AsyncNotification)
    (h : s.visible = false → s.pending = false) :
    (s.update_git env ev).1.visible = false →
    (s.update_git env ev).1.pending = false := by
  unfold PushComponent.update_git PushComponent.is_visible
  cases hv : s.visible with
  | false => simpa [hv] using h
  | true =>
    cases ev with
    | Other t => simp [hv]
    | Push =>
      unfold PushComponent.update
      rcases env.is_pending with e | ip
      · simp [hv]
      · rcases env.progress with e | pr
        · simp [hv]
        · rcases ip
          · rcases env.last_result with e | r
            · simp [hv]
            · rcases r with _ | err <;> simp [PushComponent.hide]
          · simp [hv]

/-- A reachable state for the C2 counterexample: a direct push (so `pending`
becomes true) followed by the cancel/close key while the transfer is still
in flight. -/
def hiddenPendingComp : PushComponent :=
  ((PushComponent.new.push envBase "main").1.event envBase
    (Event.Key KeyCode.esc)).1

/-- C2 counterexample: the state reached by a direct push followed by the
cancel/close key is reachable, hidden, and still `pending` — the key-event
`hide` does not clear `pending`, so the claimed invariant fails on states
reachable through key events. -/
theorem visible_pending_invariant_cex :
    Reachable hiddenPendingComp ∧ hiddenPendingComp.visible = false ∧
    hiddenPendingComp.pending = true := by
  refine ⟨?_, by decide, by decide⟩
  exact Reachable.step
    (Reachable.step Reachable.init
      (Step.push PushComponent.new envBase "main"))
    (Step.event (PushComponent.new.push envBase "main").1 envBase
      (Event.Key KeyCode.esc))

/-- C2 amended: in every state reachable from the fresh controller through
`push` and `onNotification` calls alone (no key events), hidden implies not
pending; the key-event handler can hide the controller while `pending`
remains true. -/
theorem visible_pending_invariant (s : PushComponent)
    (h : ReachableNoKey s) : s.visible = false → s.pending = false := by
  induction h with
  | init => intro; rfl
  | step hr hs ih =>
    cases hs with
    | push env b =>
      intro hv
      rw [push_visible] at hv
      cases hv
    | update_git env ev => exact update_git_inv _ env ev ih

/-- A reachable no-key state: direct push, then the terminal-failure
notification, which hides the controller and clears `pending`. -/
def terminalIdleComp : PushComponent :=
  ((PushComponent.new.push envBase "main").1.update_git envTerminalErr
    AsyncNotification.Push).1

/-- C2 amended witness: a push followed by a terminal notification reaches a
hidden state, and the invariant yields `pending = false` there. -/
theorem visible_pending_invariant_witness :
    terminalIdleComp.pending = false :=
  visible_pending_invariant terminalIdleComp
    (ReachableNoKey.step
      (ReachableNoKey.step ReachableNoKey.init
        (StepNoKey.push PushComponent.new envBase "main"))
      (StepNoKey.update_git (PushComponent.new.push envBase "main").1
        envTerminalErr AsyncNotification.Push))
    (by decide)

/-- C3 witness: Scenario E, terminal failure "connection reset". -/
theorem update_terminal_witness :
    (PushComponent.new.update envTerminalErr).1.queue =
      PushComponent.new.queue ++
        [InternalEvent.ShowErrorMsg ("push failed:\n" ++ "connection reset")] ∧
    (∃ pre post,
      "push failed:\n" ++ "connection reset" =
        pre ++ "connection reset" ++ post) ∧
    (PushComponent.new.update envTerminalErr).1.visible = false :=
  (update_terminal PushComponent.new envTerminalErr none rfl rfl).1
    "connection reset" rfl

/-- Environment in which authentication is needed and the stored credential
is incomplete (username only). -/
def envAuthIncomplete : Env :=
  { envBase with
      need_username_password := Except.ok true
      extract_username_password :=
        Except.ok (BasicAuthCredential.new (some "bob") none) }

/-- Environment in which authentication is needed and the credential store
query fails. -/
def envAuthExtractFail : Env :=
  { envBase with
      need_username_password := Except.ok true
      extract_username_password := Except.error "no config" }

/-- C4 amended: starting from a not-pending controller, if authentication is
needed and the stored credential is incomplete (or extraction fails, which
is downgraded to the empty credential), `push` returns Ok with the
controller visible, still not pending, no request submitted, and the
negotiator visible and primed with the extracted (resp. empty)
credential. -/
theorem push_credential_gate (s : PushComponent) (env : Env) (b : String)
    (hp : s.pending = false)
    (hn : env.need_username_password = Except.ok true) :
    (∀ c, env.extract_username_password = Except.ok c →
      c.is_complete = false →
      (s.push env b).1.visible = true ∧ (s.push env b).1.pending = false ∧
      (s.push env b).1.requests = s.requests ∧
      (s.push env b).1.input_cred.visible = true ∧
      (s.push env b).1.input_cred.cred = c ∧
      (s.push env b).2 = Except.ok ()) ∧
    (∀ e, env.extract_username_password = Except.error e →
      (s.push env b).1.visible = true ∧ (s.push env b).1.pending = false ∧
      (s.push env b).1.requests = s.requests ∧
      (s.push env b).1.input_cred.visible = true ∧
      (s.push env b).1.input_cred.cred = BasicAuthCredential.new none none ∧
      (s.push env b).2 = Except.ok ()) := by
  constructor
  · intro c hex hc
    simp [PushComponent.push, PushComponent.show, hn, hex, hc,
      CredComponent.set_cred, CredComponent.show, hp]
  · intro e hex
    have hc : (BasicAuthCredential.new none none).is_complete = false := rfl
    simp [PushComponent.push, PushComponent.show, hn, hex, hc,
      CredComponent.set_cred, CredComponent.show, hp]

/-- C4 witness: Scenario B in both flavors, incomplete stored credential and
failing extraction, from the fresh controller. -/
theorem push_credential_gate_witness :
    ((PushComponent.new.push envAuthIncomplete "dev").1.visible = true ∧
     (PushComponent.new.push envAuthIncomplete "dev").1.pending = false ∧
     (PushComponent.new.push envAuthIncomplete "dev").1.requests =
       PushComponent.new.requests ∧
     (PushComponent.new.push envAuthIncomplete "dev").1.input_cred.visible = true ∧
     (PushComponent.new.push envAuthIncomplete "dev").1.input_cred.cred =
       BasicAuthCredential.new (some "bob") none ∧
     (PushComponent.new.push envAuthIncomplete "dev").2 = Except.ok ()) ∧
    ((PushComponent.new.push envAuthExtractFail "dev").1.input_cred.visible = true ∧
     (PushComponent.new.push envAuthExtractFail "dev").1.input_cred.cred =
       BasicAuthCredential.new none none) :=
  ⟨(push_credential_gate PushComponent.new envAuthIncomplete "dev" rfl rfl).1
      (BasicAuthCredential.new (some "bob") none) rfl (by decide),
   ⟨((push_credential_gate PushComponent.new envAuthExtractFail "dev" rfl rfl).2
      "no config" rfl).2.2.2.1,
    ((push_credential_gate PushComponent.new envAuthExtractFail "dev" rfl rfl).2
      "no config" rfl).2.2.2.2.1⟩⟩

/-- A reachable state for the C4 counterexample: a direct push leaves
`pending = true`, then a second push hits the credential gate. -/
def credGatePendingComp : PushComponent :=
  ((PushComponent.new.push envBase "main").1.push envAuthIncomplete "dev").1

/-- C4 counterexample: a push that takes the credential-gate path
(authentication needed, stored credential incomplete) while a previous
transfer is still pending ends awaiting credentials with `pending` still
true: `push` does not reset `pending`, so the claimed unconditional
`pending = false` fails. -/
theorem push_credential_gate_cex :
    Reachable credGatePendingComp ∧
    credGatePendingComp.input_cred.visible = true ∧
    ¬(credGatePendingComp.pending = false) := by
  refine ⟨?_, by decide, by decide⟩
  exact Reachable.step
    (Reachable.step Reachable.init
      (Step.push PushComponent.new envBase "main"))
    (Step.push (PushComponent.new.push envBase "main").1 envAuthIncomplete
      "dev")

/-- Environment in which the authentication-requirement check itself
fails. -/
def envNeedFail : Env :=
  { envBase with need_username_password := Except.error "no remote" }

/-- Environment whose progress poll returns a mid-transfer snapshot. -/
def envProg : Env :=
  { envBase with
      progress := Except.ok (some { state := PushProgressState.Pushing
                                    progress := 42 }) }

/-- C6 amended: every `push` sets the target branch to its argument, but
`pending` and `progress` are reset only on the submission path —
`push_to_remote` sets `pending` to true and `progress` to none — and every
non-submitting path of `push` leaves them unchanged: the failing
authentication check, the awaiting-credentials end with an incomplete stored
credential, and the awaiting-credentials end reached through a failing
extraction (downgraded to the empty credential). -/
theorem push_resets (s : PushComponent) (env : Env) (b : String)
    (cred : Option BasicAuthCredential) :
    (s.push env b).1.branch = b ∧
    (∀ e, env.need_username_password = Except.error e →
      (s.push env b).1.pending = s.pending ∧
      (s.push env b).1.progress = s.progress) ∧
    (∀ c, env.need_username_password = Except.ok true →
      env.extract_username_password = Except.ok c →
      c.is_complete = false →
      (s.push env b).1.pending = s.pending ∧
      (s.push env b).1.progress = s.progress) ∧
    (∀ e, env.need_username_password = Except.ok true →
      env.extract_username_password = Except.error e →
      (s.push env b).1.pending = s.pending ∧
      (s.push env b).1.progress = s.progress) ∧
    ((s.push_to_remote env cred).1.pending = true ∧
     (s.push_to_remote env cred).1.progress = none) := by
  refine ⟨?_, ?_, ?_, ?_, ?_⟩
  · unfold PushComponent.push PushComponent.push_to_remote PushComponent.show
    rcases env.need_username_password with e | needed
    · rfl
    · rcases needed
      · rcases env.request_result with e | u <;> rfl
      · rcases env.extract_username_password with e | c
        · rcases env.request_result with e | u <;> rfl
        · rcases hc : c.is_complete
          · simp [hc]
          · rcases env.request_result with e | u <;> simp [hc]
  · intro e hne
    constructor <;> simp [PushComponent.push, PushComponent.show, hne]
  · intro c hn hex hc
    constructor <;>
      simp [PushComponent.push, PushComponent.show, hn, hex, hc,
        CredComponent.set_cred, CredComponent.show]
  · intro e hn hex
    have hc : (BasicAuthCredential.new none none).is_complete = false := rfl
    constructor <;>
      simp [PushComponent.push, PushComponent.show, hn, hex, hc,
        CredComponent.set_cred, CredComponent.show]
  · constructor <;>
      · unfold PushComponent.push_to_remote
        rcases env.request_result with e | u <;> rfl

/-- A reachable state with `pending = true` and a stored snapshot: a direct
push followed by a progress notification. Used to exercise the C6 witness
non-vacuously. -/
def progressPendingComp : PushComponent :=
  ((PushComponent.new.push envBase "main").1.update_git envProg
    AsyncNotification.Push).1

/-- C6 amended witness: from a state with `pending = true` and a stored
snapshot, pushes hitting the failing authentication check, the
incomplete-credential gate, and the failing-extraction gate all keep
`pending`/`progress` and set the branch, while a direct submission sets
`pending = true` with `progress = none`. -/
theorem push_resets_witness :
    ((progressPendingComp.push envAuthIncomplete "dev").1.branch = "dev") ∧
    ((progressPendingComp.push envNeedFail "dev").1.pending =
       progressPendingComp.pending ∧
     (progressPendingComp.push envNeedFail "dev").1.progress =
       progressPendingComp.progress) ∧
    ((progressPendingComp.push envAuthIncomplete "dev").1.pending =
       progressPendingComp.pending ∧
     (progressPendingComp.push envAuthIncomplete "dev").1.progress =
       progressPendingComp.progress) ∧
    ((progressPendingComp.push envAuthExtractFail "dev").1.pending =
       progressPendingComp.pending ∧
     (progressPendingComp.push envAuthExtractFail "dev").1.progress =
       progressPendingComp.progress) ∧
    ((progressPendingComp.push_to_remote envAuthIncomplete none).1.pending =
       true ∧
     (progressPendingComp.push_to_remote envAuthIncomplete none).1.progress =
       none) :=
  ⟨(push_resets progressPendingComp envAuthIncomplete "dev" none).1,
   (push_resets progressPendingComp envNeedFail "dev" none).2.1
     "no remote" rfl,
   (push_resets progressPendingComp envAuthIncomplete "dev" none).2.2.1
     (BasicAuthCredential.new (some "bob") none) rfl rfl (by decide),
   (push_resets progressPendingComp envAuthExtractFail "dev" none).2.2.2.1
     "no config" rfl rfl,
   (push_resets progressPendingComp envAuthIncomplete "dev" none).2.2.2.2⟩

/-- The run for the C6 counterexample: direct push, a progress notification
(storing a snapshot), then a credential-gated push. -/
def awaitingWithProgressComp : PushComponent :=
  (((PushComponent.new.push envBase "main").1.update_git envProg
      AsyncNotification.Push).1.push envAuthIncomplete "dev").1

/-- C6 counterexample: after a push that ends awaiting credentials, the
previously stored snapshot is still there and `pending` is still true —
`push` resets neither `progress` nor `pending` at its start, contradicting
the claim (which requires `progress = none` in exactly this state). -/
theorem push_resets_cex :
    awaitingWithProgressComp.input_cred.visible = true ∧
    ¬(awaitingWithProgressComp.progress = none) ∧
    ¬(awaitingWithProgressComp.pending = false) := by
  refine ⟨by decide, by decide, by decide⟩

/-- C7 amended: confirm key pressed while the controller is visible and the
negotiator does not consume the event: if the negotiator is visible with a
complete credential, `push_to_remote` is called with that credential (one
request carrying it is submitted and `pending` becomes true) and, when the
submission succeeds, the negotiator is hidden while the controller stays
visible and the event is consumed; otherwise the whole controller is
hidden. -/
theorem event_confirm (s : PushComponent) (env : Env)
    (hv : s.visible = true) (hnc : env.cred_consumes = false) :
    ((s.input_cred.visible = true →
      (s.input_cred.cred).is_complete = true →
      env.request_result = Except.ok () →
      ((s.event env (Event.Key KeyCode.enter)).1.requests =
        s.requests ++
          [{ remote := DEFAULT_REMOTE_NAME, branch := s.branch,
             basic_credential := some s.input_cred.cred }] ∧
       (s.event env (Event.Key KeyCode.enter)).1.pending = true ∧
       (s.event env (Event.Key KeyCode.enter)).1.input_cred.visible = false ∧
       (s.event env (Event.Key KeyCode.enter)).1.visible = true ∧
       (s.event env (Event.Key KeyCode.enter)).2 = Except.ok true))) ∧
    ((s.input_cred.visible = false ∨
        (s.input_cred.cred).is_complete = false) →
      ((s.event env (Event.Key KeyCode.enter)).1.visible = false ∧
       (s.event env (Event.Key KeyCode.enter)).2 = Except.ok true)) := by
  constructor
  · intro hic hcc hr
    simp [PushComponent.event, key_config, hv, CredComponent.event, hnc,
      hic, hcc, CredComponent.is_visible, CredComponent.get_cred,
      CredComponent.hide, PushComponent.push_to_remote, hr]
  · intro hor
    rcases hor with hic | hcc
    · simp [PushComponent.event, key_config, hv, CredComponent.event, hnc,
        hic, CredComponent.is_visible, PushComponent.hide]
    · rcases hic : s.input_cred.visible
      · simp [PushComponent.event, key_config, hv, CredComponent.event, hnc,
          hic, CredComponent.is_visible, PushComponent.hide]
      · simp [PushComponent.event, key_config, hv, CredComponent.event, hnc,
          hic, hcc, CredComponent.is_visible, CredComponent.get_cred,
          PushComponent.hide]

/-- Environment in which the negotiator consumes an edit key and then holds
a complete credential. -/
def envFill : Env :=
  { envBase with
      cred_consumes := true
      cred_after := BasicAuthCredential.new (some "bob") (some "pw") }

/-- The state just before the confirm press for the C7 scenarios: a
credential-gated push, then an edit key completing the credential. -/
def preConfirmComp : PushComponent :=
  ((PushComponent.new.push envAuthIncomplete "dev").1.event envFill
    (Event.Key (KeyCode.char 'x'))).1

/-- C7 witness: at the pre-confirm state, the confirm key with a successful
submission hides the negotiator, keeps the controller visible and pending,
and submits the completed credential; and at the fresh (negotiator-hidden)
state made visible, confirm hides the whole controller. -/
theorem event_confirm_witness :
    ((preConfirmComp.event envBase (Event.Key KeyCode.enter)).1.requests =
      preConfirmComp.requests ++
        [{ remote := DEFAULT_REMOTE_NAME, branch := preConfirmComp.branch,
           basic_credential := some preConfirmComp.input_cred.cred }] ∧
     (preConfirmComp.event envBase (Event.Key KeyCode.enter)).1.pending = true ∧
     (preConfirmComp.event envBase
        (Event.Key KeyCode.enter)).1.input_cred.visible = false ∧
     (preConfirmComp.event envBase (Event.Key KeyCode.enter)).1.visible = true ∧
     (preConfirmComp.event envBase (Event.Key KeyCode.enter)).2 =
       Except.ok true) ∧
    ((PushComponent.new.show.event envBase (Event.Key KeyCode.enter)).1.visible =
       false ∧
     (PushComponent.new.show.event envBase (Event.Key KeyCode.enter)).2 =
       Except.ok true) :=
  ⟨(event_confirm preConfirmComp envBase (by decide) rfl).1 (by decide)
      (by decide) rfl,
   (event_confirm PushComponent.new.show envBase (by decide) rfl).2
      (Or.inl (by decide))⟩

/-- C7 counterexample: at the same pre-confirm state (controller visible,
negotiator visible with a complete, unconsumed credential) but with the
engine rejecting the submission, the confirm key does call `push_to_remote`
with the credential, yet the negotiator is NOT hidden, contradicting the
claimed unconditional hiding of the negotiator. -/
theorem event_confirm_cex :
    preConfirmComp.visible = true ∧
    preConfirmComp.input_cred.visible = true ∧
    (preConfirmComp.input_cred.cred).is_complete = true ∧
    envSubmitFail.cred_consumes = false ∧
    (preConfirmComp.event envSubmitFail (Event.Key KeyCode.enter)).1.requests =
      preConfirmComp.requests ++
        [{ remote := DEFAULT_REMOTE_NAME, branch := "dev",
           basic_credential :=
             some (BasicAuthCredential.new (some "bob") (some "pw")) }] ∧
    (preConfirmComp.event envSubmitFail
       (Event.Key KeyCode.enter)).1.pending = true ∧
    ¬((preConfirmComp.event envSubmitFail
        (Event.Key KeyCode.enter)).1.input_cred.visible = false) := by
  refine ⟨by decide, by decide, by decide, rfl, by decide, by decide, by decide⟩

end Gitui
